import Mathlib

/-!
Verification of the tiny-spark payment facade (the `wallet` Go package and its
`config` loader). The facade wraps an external wallet runtime (the Breez Spark
SDK); here the runtime is modelled as an oracle: a record of functions the
facade calls, each returning either a typed backend error or a response value.
Machine integers are modelled over `Int` with explicit two's-complement
wrapping where the Go code converts between integer widths. Operations that
issue backend calls additionally return the list of backend calls they made,
so that claims about which calls are (not) attempted can be stated.
-/

namespace TinySpark

/-- Two's-complement wrap of an integer into the signed 64-bit range. This
models Go `int64` conversions and `big.Int.Int64()` (low-order 64 bits,
interpreted as a signed value). Applied to a `uint64` value it also models the
Go conversion `int64(u)`. -/
def i64wrap (z : ℤ) : ℤ := (z + 2 ^ 63) % 2 ^ 64 - 2 ^ 63

/-- Go conversion `uint32(n)` from a (64-bit) integer: truncation to the
low-order 32 bits. -/
def u32ofInt (z : ℤ) : ℕ := (z % 2 ^ 32).toNat

/-- Payment classification tag carried by a backend payment record
(`breez_sdk_spark.PaymentType`). `other` stands for any tag value that is
neither the receive tag nor the send tag (absent or unrecognized). -/
inductive SdkPaymentType where
  | receive
  | send
  | other (tag : String)
deriving DecidableEq

/-- Payment status carried by a backend payment record
(`breez_sdk_spark.PaymentStatus`). `other` stands for any further status
value; its raw string form is kept. -/
inductive SdkPaymentStatus where
  | pending
  | completed
  | failed
  | other (raw : String)
deriving DecidableEq

/-- A backend payment record (`breez_sdk_spark.Payment`): id, type tag,
amount and fees as arbitrary-precision integers (`big.Int`), status and
timestamp. -/
structure SdkPayment where
  id : String
  paymentType : SdkPaymentType
  amount : ℤ
  fees : ℤ
  status : SdkPaymentStatus
  timestamp : ℕ
deriving DecidableEq

/-- One per-token balance entry of the backend info response; only the fields
the facade reads for the balance query are kept. -/
structure SdkTokenBalance where
  tokenId : String
  balance : ℤ
deriving DecidableEq

/-- The backend `GetInfo` response: the primary balance (`BalanceSats`, a
`uint64`) and the per-token balances, in backend iteration order. -/
structure GetInfoResponse where
  balanceSats : ℕ
  tokenBalances : List SdkTokenBalance
deriving DecidableEq

/-- The typed backend error (`breez_sdk_spark.SdkError`), reduced to its
message. -/
structure SdkError where
  msg : String
deriving DecidableEq

/-- The facade balance record (`wallet.Balance`). -/
structure Balance where
  LightningBalanceSats : ℤ
  MaxPayableSats : ℤ
  MaxReceivableSats : ℤ
deriving DecidableEq

/-- The token-substitution loop of `Wallet.GetBalance` (part_000 lines
131-139): scan the token balances in order and return the first one whose
`Int64` value is positive, if any. -/
def firstPositiveTokenBalance : List SdkTokenBalance → Option ℤ
  | [] => none
  | t :: ts =>
      if 0 < i64wrap t.balance then some (i64wrap t.balance)
      else firstPositiveTokenBalance ts

/-- Success-path body of `Wallet.GetBalance` (part_000 lines 118-146): start
from `int64(info.BalanceSats)`; if the token-balance list is non-empty,
replace it with the first positive token balance found (keeping the primary
value when no token balance is positive); all three fields of the returned
record are that value. -/
def GetBalance (info : GetInfoResponse) : Balance :=
  let primary : ℤ := i64wrap (info.balanceSats : ℤ)
  let balanceSats : ℤ :=
    if 0 < info.tokenBalances.length then
      match firstPositiveTokenBalance info.tokenBalances with
      | some v => v
      | none => primary
    else primary
  { LightningBalanceSats := balanceSats
    MaxPayableSats := balanceSats
    MaxReceivableSats := balanceSats }

/-- The status-to-readable-string switch shared by `GetTransactions` (part_000
lines 200-210) and `GetPayment` (lines 420-430). -/
def statusStr : SdkPaymentStatus → String
  | .pending => "Pending"
  | .completed => "Complete"
  | .failed => "Failed"
  | .other raw => raw

/-- The facade transaction record (`wallet.Transaction`); the source field
named `Type` is rendered `TxType` since `Type` is reserved here. -/
structure Transaction where
  ID : String
  AmountSats : ℤ
  FeeSats : ℤ
  Status : String
  TxType : String
  Description : String
  Timestamp : ℕ
  PaymentHash : String
deriving DecidableEq

/-- Transaction-type classification of the `GetTransactions` loop (part_000
lines 179-197): the explicit tag wins; with an unrecognized tag the sign of
the raw `Int64` amount decides. -/
def listTxType (p : SdkPayment) : String :=
  match p.paymentType with
  | .receive => "receive"
  | .send => "send"
  | .other _ => if 0 < i64wrap p.amount then "receive" else "send"

/-- Amount produced by the `GetTransactions` loop (part_000 lines 179-197):
kept as the raw `Int64` amount for receive-tagged records, negated (as 64-bit
arithmetic) for send-tagged records; in the unrecognized-tag fallback both
source branches assign the raw amount unchanged. -/
def listTxAmount (p : SdkPayment) : ℤ :=
  match p.paymentType with
  | .receive => i64wrap p.amount
  | .send => i64wrap (-(i64wrap p.amount))
  | .other _ => i64wrap p.amount

/-- Per-payment mapping of the `GetTransactions` loop body (part_000 lines
170-225). -/
def listTransaction (p : SdkPayment) : Transaction :=
  { ID := p.id
    AmountSats := listTxAmount p
    FeeSats := i64wrap p.fees
    Status := statusStr p.status
    TxType := listTxType p
    Description := "Payment"
    Timestamp := p.timestamp
    PaymentHash := p.id }

/-- The effective backend page size computed by `GetTransactions` (part_000
lines 150-154): the caller limit converted with `uint32(limit)`, then raised
to 100 when the converted value is below 10. -/
def effectivePageSize (limit : ℤ) : ℕ :=
  let limitPtr := u32ofInt limit
  if limitPtr < 10 then 100 else limitPtr

/-- The backend `ListPayments` request the facade builds (offset and limit,
part_000 lines 157-160). -/
structure ListPaymentsRequest where
  offset : ℕ
  limit : ℕ
deriving DecidableEq

/-- `Wallet.GetTransactions` (part_000 lines 149-228) over a backend
`ListPayments` oracle: build the request with offset 0 and the effective page
size, then map every returned payment; no entry is dropped. -/
def GetTransactions (listPayments : ListPaymentsRequest → Except SdkError (List SdkPayment))
    (limit : ℤ) : Except String (List Transaction) :=
  match listPayments ⟨0, effectivePageSize limit⟩ with
  | .error e => .error ("failed to get transaction history: " ++ e.msg)
  | .ok payments => .ok (payments.map listTransaction)

/-- Per-payment mapping of `Wallet.GetPayment` (part_000 lines 411-441): the
type is classified from the sign of the raw `Int64` amount only, and the
amount is the raw `Int64` amount unchanged. -/
def getTransaction (p : SdkPayment) : Transaction :=
  { ID := p.id
    AmountSats := i64wrap p.amount
    FeeSats := i64wrap p.fees
    Status := statusStr p.status
    TxType := if 0 < i64wrap p.amount then "receive" else "send"
    Description := "Payment"
    Timestamp := p.timestamp
    PaymentHash := p.id }

/-- `Wallet.GetPayment` (part_000 lines 401-442) over a backend `GetPayment`
oracle keyed by payment id. -/
def GetPayment (getPaymentBackend : String → Except SdkError SdkPayment)
    (paymentID : String) : Except String Transaction :=
  match getPaymentBackend paymentID with
  | .error e => .error ("failed to get payment: " ++ e.msg)
  | .ok p => .ok (getTransaction p)

/-- Names of the network calls the facade can issue against the wallet
runtime; operations that talk to the backend also return the list of calls
they made, in order. -/
inductive BackendCall where
  | connect
  | getInfo
  | listPayments
  | getPayment
  | receivePayment
  | prepareSendPayment
  | sendPayment
  | parse
  | prepareLnurlPay
  | lnurlPay
deriving DecidableEq

/-- The configuration record (`config.Config`). -/
structure Config where
  BreezAPIKey : String
  BreezMnemonic : String
  BreezNetwork : String
  BreezWorkingDir : String
deriving DecidableEq

/-- Environment lookup with a default (`config.getEnv`): the environment is a
total map from variable names to strings, where an unset variable reads as
the empty string, exactly as `os.Getenv` reports it. -/
def getEnv (env : String → String) (key defaultValue : String) : String :=
  if env key ≠ "" then env key else defaultValue

/-- `config.LoadConfig` (config.go lines 18-41): read the four variables with
their defaults, then reject an empty API key or an empty mnemonic before
returning the record. -/
def LoadConfig (env : String → String) : Except String Config :=
  let config : Config :=
    { BreezAPIKey := getEnv env "BREEZ_API_KEY" ""
      BreezMnemonic := getEnv env "BREEZ_MNEMONIC" ""
      BreezNetwork := getEnv env "BREEZ_NETWORK" "mainnet"
      BreezWorkingDir := getEnv env "BREEZ_WORKING_DIR" (getEnv env "BREEZ_DATA_DIR" ".tiny-spark-data") }
  if config.BreezAPIKey = "" then .error "BREEZ_API_KEY is required"
  else if config.BreezMnemonic = "" then .error "BREEZ_MNEMONIC is required"
  else .ok config

/-- Networks of the backend SDK the facade selects between
(`breez_sdk_spark.Network`): the production network and the regtest sandbox
network. -/
inductive Network where
  | mainnet
  | regtest
deriving DecidableEq

/-- `networkFromString` (part_000 lines 538-548): only the exact string
"mainnet" yields the production network; "testnet" and every other value fall
through to regtest. -/
def networkFromString (network : String) : Network :=
  if network = "mainnet" then Network.mainnet
  else if network = "testnet" then Network.regtest
  else Network.regtest

/-- The connect request the facade assembles for the runtime (part_000 lines
69-89), reduced to the fields the facade fills from its configuration. -/
structure ConnectRequest where
  network : Network
  apiKey : String
  mnemonic : String
  storageDir : String
deriving DecidableEq

/-- `wallet.NewWallet` (part_000 lines 63-107) over a backend connect oracle.
The filesystem preparation of the working directory is modelled by the
`workingDirOk` flag (`createWorkingDir` touches only the local filesystem,
not the network); when it fails, and when the runtime connect call fails, the
constructor returns an error. The first component lists the backend calls
issued. -/
def NewWallet (connectRuntime : ConnectRequest → Except SdkError Unit)
    (workingDirOk : Bool) (cfg : Config) : List BackendCall × Except String Unit :=
  if workingDirOk = false then ([], .error "failed to create working directory")
  else
    let request : ConnectRequest :=
      { network := networkFromString cfg.BreezNetwork
        apiKey := cfg.BreezAPIKey
        mnemonic := cfg.BreezMnemonic
        storageDir := cfg.BreezWorkingDir }
    match connectRuntime request with
    | .error e => ([BackendCall.connect], .error ("failed to connect to Breez SDK: " ++ e.msg))
    | .ok _ => ([BackendCall.connect], .ok ())

/-- Facade construction as the caller performs it (main.go lines 25-34):
load and validate the configuration, then initialize the wallet; a
configuration error aborts before `NewWallet` runs, hence before any backend
call. -/
def connectFacade (env : String → String)
    (connectRuntime : ConnectRequest → Except SdkError Unit)
    (workingDirOk : Bool) : List BackendCall × Except String Unit :=
  match LoadConfig env with
  | .error e => ([], .error e)
  | .ok cfg => NewWallet connectRuntime workingDirOk cfg

/-- A Go `error` interface value as received from an SDK call: the nil
interface, a non-nil `*SdkError`, a typed nil `*SdkError` pointer stored in
the interface, or a value of some other concrete error type. -/
inductive GoErr where
  | nilInterface
  | sdkError (msg : String)
  | sdkErrorNilPtr
  | otherType (msg : String)
deriving DecidableEq

/-- Result of the Go one-value type assertion `err.(*SdkError)`: it panics on
a nil interface and on any other concrete type, and otherwise yields the
(possibly nil) `*SdkError` pointer. -/
inductive AssertSdkError where
  | panicked
  | asserted (v : Option String)
deriving DecidableEq

/-- Semantics of the one-value type assertion `err.(*SdkError)` used by every
facade operation to classify the backend error. -/
def assertSdkError : GoErr → AssertSdkError
  | .nilInterface => .panicked
  | .sdkError m => .asserted (some m)
  | .sdkErrorNilPtr => .asserted none
  | .otherType _ => .panicked

/-- Outcome of a facade operation whose backend result is classified with the
one-value type assertion pattern: a runtime panic, a wrapped error return, or
the normalized result. -/
inductive OpOutcome (A : Type) where
  | panicked
  | errReturn (msg : String)
  | ok (a : A)
deriving DecidableEq

/-- The error-classification step shared by every facade operation (the
pattern `if sdkErr := err.(*SdkError); sdkErr != nil`, e.g. part_000 lines
120-125): assert, return a wrapped error on a non-nil pointer, and continue
with the response otherwise. -/
def classifyAndContinue {A B : Type} (wrap : String → String) (res : A)
    (err : GoErr) (k : A → B) : OpOutcome B :=
  match assertSdkError err with
  | .panicked => .panicked
  | .asserted (some m) => .errReturn (wrap m)
  | .asserted none => .ok (k res)

/-- `Wallet.GetBalance` over a raw backend result pair (info, err), with the
error-classification step modelled at Go interface level (part_000 lines
118-146). -/
def GetBalanceOp (info : GetInfoResponse) (err : GoErr) : OpOutcome Balance :=
  classifyAndContinue (fun m => "failed to get wallet info: " ++ m) info err GetBalance

/-- `Wallet.GetPayment` over a raw backend result pair (payment, err), with
the error-classification step modelled at Go interface level (part_000 lines
406-409). -/
def GetPaymentOp (p : SdkPayment) (err : GoErr) : OpOutcome Transaction :=
  classifyAndContinue (fun m => "failed to get payment: " ++ m) p err getTransaction

/-- The prepare request of the two-phase send protocol
(`breez_sdk_spark.PrepareSendPaymentRequest`): destination string and
optional amount. -/
structure PrepareSendPaymentRequest where
  paymentRequest : String
  amount : Option ℤ
deriving DecidableEq

/-- The opaque prepare response handed back to the execute phase; its content
is chosen by the backend and never inspected by the facade. -/
structure PrepareSendResponse where
  tag : ℕ
deriving DecidableEq

/-- Confirmation-speed preference for on-chain sends
(`breez_sdk_spark.OnchainConfirmationSpeed`). -/
inductive ConfirmationSpeed where
  | fast
  | medium
  | slow
deriving DecidableEq

/-- Options attached to the execute phase; the facade only ever builds the
on-chain variant with the medium speed (part_000 lines 342-344). -/
inductive SendPaymentOptions where
  | bitcoinAddress (confirmationSpeed : ConfirmationSpeed)
deriving DecidableEq

/-- The execute-phase response: the settled payment record. -/
structure SendPaymentResponse where
  payment : SdkPayment
deriving DecidableEq

/-- The backend send surface: the prepare and execute calls of the two-phase
protocol. -/
structure SendBackend where
  prepareSendPayment : PrepareSendPaymentRequest → Except SdkError PrepareSendResponse
  sendPayment : PrepareSendResponse → Option SendPaymentOptions → Except SdkError SendPaymentResponse

/-- The facade payment result (`wallet.PaymentResponse`). -/
structure PaymentResponse where
  PaymentHash : String
  AmountSats : ℤ
  FeeSats : ℤ
  Status : String
  CompletedAt : ℕ
deriving DecidableEq

/-- The raw string form of a payment status, as produced by the Go conversion
`string(payment.Status)` on the send paths (e.g. part_000 line 320), which
does not apply the readable-status switch. -/
def rawStatusString : SdkPaymentStatus → String
  | .pending => "pending"
  | .completed => "completed"
  | .failed => "failed"
  | .other raw => raw

/-- Assembly of the facade payment result from the settled backend payment,
shared by the three send paths and the LNURL path (e.g. part_000 lines
316-322): hash, amount and fees are taken from the backend record unchanged
(as `Int64` values). -/
def mkPaymentResponse (p : SdkPayment) : PaymentResponse :=
  { PaymentHash := p.id
    AmountSats := i64wrap p.amount
    FeeSats := i64wrap p.fees
    Status := rawStatusString p.status
    CompletedAt := p.timestamp }

/-- `Wallet.SendLightningInvoice` (part_000 lines 294-323): prepare with a
nil amount, then execute with no options; a prepare failure returns before
the execute call. -/
def SendLightningInvoice (b : SendBackend) (bolt11 : String) :
    List BackendCall × Except String PaymentResponse :=
  match b.prepareSendPayment ⟨bolt11, none⟩ with
  | .error e =>
      ([BackendCall.prepareSendPayment],
        .error ("failed to prepare lightning payment: " ++ e.msg))
  | .ok prep =>
      match b.sendPayment prep none with
      | .error e =>
          ([BackendCall.prepareSendPayment, BackendCall.sendPayment],
            .error ("failed to send lightning payment: " ++ e.msg))
      | .ok resp =>
          ([BackendCall.prepareSendPayment, BackendCall.sendPayment],
            .ok (mkPaymentResponse resp.payment))

/-- `Wallet.SendBitcoinAddress` (part_000 lines 326-363): prepare with the
requested amount, then execute with the medium confirmation speed; a prepare
failure returns before the execute call. -/
def SendBitcoinAddress (b : SendBackend) (address : String) (amountSats : ℤ) :
    List BackendCall × Except String PaymentResponse :=
  match b.prepareSendPayment ⟨address, some amountSats⟩ with
  | .error e =>
      ([BackendCall.prepareSendPayment],
        .error ("failed to prepare onchain payment: " ++ e.msg))
  | .ok prep =>
      match b.sendPayment prep (some (SendPaymentOptions.bitcoinAddress ConfirmationSpeed.medium)) with
      | .error e =>
          ([BackendCall.prepareSendPayment, BackendCall.sendPayment],
            .error ("failed to send onchain payment: " ++ e.msg))
      | .ok resp =>
          ([BackendCall.prepareSendPayment, BackendCall.sendPayment],
            .ok (mkPaymentResponse resp.payment))

/-- `Wallet.SendSparkAddress` (part_000 lines 366-398): prepare with the
requested amount, then execute with no options; a prepare failure returns
before the execute call. -/
def SendSparkAddress (b : SendBackend) (sparkAddress : String) (amountSats : ℤ) :
    List BackendCall × Except String PaymentResponse :=
  match b.prepareSendPayment ⟨sparkAddress, some amountSats⟩ with
  | .error e =>
      ([BackendCall.prepareSendPayment],
        .error ("failed to prepare spark payment: " ++ e.msg))
  | .ok prep =>
      match b.sendPayment prep none with
      | .error e =>
          ([BackendCall.prepareSendPayment, BackendCall.sendPayment],
            .error ("failed to send spark payment: " ++ e.msg))
      | .ok resp =>
          ([BackendCall.prepareSendPayment, BackendCall.sendPayment],
            .ok (mkPaymentResponse resp.payment))

/-- Result of the backend `Parse` call on an alias
(`breez_sdk_common.InputType`): the facade only handles the
lightning-address (pay-request) variant; `otherInput` stands for every other
resolved kind. -/
inductive InputType where
  | lightningAddress (payRequest : String)
  | otherInput (kind : String)
deriving DecidableEq

/-- The prepare request of the LNURL pay path
(`breez_sdk_spark.PrepareLnurlPayRequest`), with the fields the facade fills
(part_000 lines 456-461). -/
structure PrepareLnurlPayRequest where
  amountSats : ℕ
  payRequest : String
  comment : Option String
  validateSuccessActionUrl : Option Bool
deriving DecidableEq

/-- The opaque LNURL prepare response handed to the pay call. -/
structure PrepareLnurlPayResponse where
  tag : ℕ
deriving DecidableEq

/-- The backend surface of the LNURL pay path: resolution (`Parse`), prepare
and execute. -/
structure LnurlBackend where
  parse : String → Except SdkError InputType
  prepareLnurlPay : PrepareLnurlPayRequest → Except SdkError PrepareLnurlPayResponse
  lnurlPay : PrepareLnurlPayResponse → Except SdkError SendPaymentResponse

/-- `Wallet.LnUrlPay` (part_000 lines 445-488): resolve the alias; only a
lightning-address resolution proceeds to prepare and execute, every other
resolved kind returns the unsupported-type error with no further backend
call. -/
def LnUrlPay (b : LnurlBackend) (lnurlAddress : String) (amountSats : ℕ)
    (comment : String) : List BackendCall × Except String PaymentResponse :=
  match b.parse lnurlAddress with
  | .error e => ([BackendCall.parse], .error ("failed to parse lnurl address: " ++ e.msg))
  | .ok (InputType.lightningAddress payRequest) =>
      match b.prepareLnurlPay ⟨amountSats, payRequest, some comment, some true⟩ with
      | .error e =>
          ([BackendCall.parse, BackendCall.prepareLnurlPay],
            .error ("failed to prepare lnurl pay: " ++ e.msg))
      | .ok prep =>
          match b.lnurlPay prep with
          | .error e =>
              ([BackendCall.parse, BackendCall.prepareLnurlPay, BackendCall.lnurlPay],
                .error ("failed to send lnurl payment: " ++ e.msg))
          | .ok resp =>
              ([BackendCall.parse, BackendCall.prepareLnurlPay, BackendCall.lnurlPay],
                .ok (mkPaymentResponse resp.payment))
  | .ok (InputType.otherInput _) =>
      ([BackendCall.parse], .error "unsupported LNURL address type")

/-- Helper: a value returned by the token-substitution scan is positive. -/
theorem firstPositiveTokenBalance_pos (ts : List SdkTokenBalance) (v : ℤ)
    (h : firstPositiveTokenBalance ts = some v) : 0 < v := by
  induction ts with
  | nil => simp [firstPositiveTokenBalance] at h
  | cons t ts ih =>
      by_cases hc : 0 < i64wrap t.balance
      · have he : firstPositiveTokenBalance (t :: ts) = some (i64wrap t.balance) := by
          simp [firstPositiveTokenBalance, hc]
        rw [he] at h
        injection h with h
        omega
      · have he : firstPositiveTokenBalance (t :: ts) = firstPositiveTokenBalance ts := by
          simp [firstPositiveTokenBalance, hc]
        rw [he] at h
        exact ih h

/-- Input for the C1 counterexample: a backend info response whose primary
balance is 500 (nonzero) while a token balance of 300 is reported. -/
def infoC1 : GetInfoResponse :=
  { balanceSats := 500, tokenBalances := [{ tokenId := "tok", balance := 300 }] }

/-- Input for the C1 witness: a primary balance of 7 with a single
non-positive token balance, so no substitution happens. -/
def infoC1none : GetInfoResponse :=
  { balanceSats := 7, tokenBalances := [{ tokenId := "t0", balance := 0 }] }

/-- C1, counterexample: the claim states the spendable amount equals the
primary balance unchanged whenever the primary balance is nonzero; on a
response with nonzero primary balance 500 and positive token balance 300 the
facade nevertheless substitutes 300, so the claim fails. -/
theorem C1_counterexample :
    infoC1.balanceSats ≠ 0 ∧
    (GetBalance infoC1).LightningBalanceSats = 300 ∧
    (GetBalance infoC1).LightningBalanceSats ≠ i64wrap (infoC1.balanceSats : ℤ) := by
  refine ⟨by decide, by decide, by decide⟩

/-- C1, amended: the substitution of GetBalance is unconditional in the
primary balance: the spendable amount is the first positive token balance
whenever one exists (a necessarily positive value, substituted regardless of
the primary balance), and equals the primary balance exactly when no token
balance is positive. -/
theorem C1_getBalance_substitution (info : GetInfoResponse) :
    (firstPositiveTokenBalance info.tokenBalances = none →
      (GetBalance info).LightningBalanceSats = i64wrap (info.balanceSats : ℤ)) ∧
    (∀ v, firstPositiveTokenBalance info.tokenBalances = some v →
      (GetBalance info).LightningBalanceSats = v ∧ 0 < v) := by
  constructor
  · intro h
    cases hts : info.tokenBalances with
    | nil => simp [GetBalance, hts]
    | cons t ts =>
        rw [hts] at h
        simp [GetBalance, hts, h]
  · intro v h
    refine ⟨?_, firstPositiveTokenBalance_pos _ _ h⟩
    cases hts : info.tokenBalances with
    | nil =>
        rw [hts] at h
        simp [firstPositiveTokenBalance] at h
    | cons t ts =>
        rw [hts] at h
        simp [GetBalance, hts, h]

/-- C1 witness: the amended statement evaluated on the two concrete
responses. -/
theorem C1_witness :
    (GetBalance infoC1none).LightningBalanceSats = i64wrap (infoC1none.balanceSats : ℤ) ∧
    ((GetBalance infoC1).LightningBalanceSats = 300 ∧ (0 : ℤ) < 300) :=
  ⟨(C1_getBalance_substitution infoC1none).1 (by decide),
    (C1_getBalance_substitution infoC1).2 300 (by decide)⟩

/-- A send-tagged backend payment with raw amount 100, shared by the C2
theorems. -/
def paymentC2send : SdkPayment :=
  { id := "p1", paymentType := SdkPaymentType.send, amount := 100, fees := 1,
    status := SdkPaymentStatus.completed, timestamp := 5 }

/-- A receive-tagged backend payment, used in the C2 witness. -/
def paymentC2recv : SdkPayment :=
  { id := "p2", paymentType := SdkPaymentType.receive, amount := 40, fees := 2,
    status := SdkPaymentStatus.pending, timestamp := 6 }

/-- Backend lookup over the fixed payment set of the C2 counterexample. -/
def getPaymentBackendC2 : String → Except SdkError SdkPayment := fun pid =>
  if pid = "p1" then .ok paymentC2send else .error { msg := "payment not found" }

/-- C2, counterexample: over the fixed backend set holding one send-tagged
payment with raw amount 100, ListPayments reports its id "p1" with amount
-100 while GetPayment on "p1" reports amount 100, so the claimed equality of
amounts fails (id and status do agree). -/
theorem C2_counterexample :
    GetTransactions (fun _ => .ok [paymentC2send]) 10 = .ok [listTransaction paymentC2send] ∧
    GetPayment getPaymentBackendC2 "p1" = .ok (getTransaction paymentC2send) ∧
    (listTransaction paymentC2send).ID = "p1" ∧
    (getTransaction paymentC2send).ID = "p1" ∧
    (listTransaction paymentC2send).AmountSats = -100 ∧
    (getTransaction paymentC2send).AmountSats = 100 ∧
    (listTransaction paymentC2send).AmountSats ≠ (getTransaction paymentC2send).AmountSats := by
  refine ⟨rfl, rfl, rfl, rfl, by decide, by decide, by decide⟩

/-- C2, amended: for the same underlying backend record, the list entry and
the GetPayment record agree on id and status always, and on amount exactly
for records not tagged send; for a send-tagged record the list entry holds
the 64-bit negation of the amount GetPayment returns. -/
theorem C2_list_get_consistency (p : SdkPayment) :
    (listTransaction p).ID = (getTransaction p).ID ∧
    (listTransaction p).Status = (getTransaction p).Status ∧
    (p.paymentType ≠ SdkPaymentType.send →
      (listTransaction p).AmountSats = (getTransaction p).AmountSats) ∧
    (p.paymentType = SdkPaymentType.send →
      (listTransaction p).AmountSats = i64wrap (-(getTransaction p).AmountSats)) := by
  refine ⟨rfl, rfl, ?_, ?_⟩
  · intro h
    cases hp : p.paymentType with
    | receive => simp [listTransaction, getTransaction, listTxAmount, hp]
    | send => exact absurd hp h
    | other tag => simp [listTransaction, getTransaction, listTxAmount, hp]
  · intro h
    simp [listTransaction, getTransaction, listTxAmount, h]

/-- C2 witness: the amended statement evaluated on a receive-tagged and on a
send-tagged concrete record. -/
theorem C2_witness :
    (listTransaction paymentC2recv).AmountSats = (getTransaction paymentC2recv).AmountSats ∧
    (listTransaction paymentC2send).AmountSats = i64wrap (-(getTransaction paymentC2send).AmountSats) :=
  ⟨(C2_list_get_consistency paymentC2recv).2.2.1 (by decide),
    (C2_list_get_consistency paymentC2send).2.2.2 rfl⟩

/-- The settled backend payment used for C3: the backend echoes the requested
amount 100 with fee 1. -/
def paymentC3 : SdkPayment :=
  { id := "tx1", paymentType := SdkPaymentType.send, amount := 100, fees := 1,
    status := SdkPaymentStatus.completed, timestamp := 9 }

/-- A send backend for C3 on which both phases of the on-chain send
succeed. -/
def sendBackendC3 : SendBackend :=
  { prepareSendPayment := fun _ => .ok { tag := 0 }
    sendPayment := fun _ _ => .ok { payment := paymentC3 } }

/-- C3, counterexample: a successful on-chain send of requested amount 100
against a backend reporting the settled amount as 100 returns amount 100,
which is not negative, so the claimed outflow sign convention fails. -/
theorem C3_counterexample :
    (SendBitcoinAddress sendBackendC3 "bc1qdest" 100).2 = .ok (mkPaymentResponse paymentC3) ∧
    (mkPaymentResponse paymentC3).AmountSats = 100 ∧
    ¬ (mkPaymentResponse paymentC3).AmountSats < 0 ∧
    (mkPaymentResponse paymentC3).FeeSats = 1 := by
  refine ⟨rfl, by decide, by decide, by decide⟩

/-- C3, amended: a successful on-chain send returns the backend settled
payment amount and fee unchanged (as Int64 values); the facade neither
negates the amount nor compares it with the requested amount, so sign and
magnitude are whatever the backend reports. -/
theorem C3_send_passthrough (b : SendBackend) (address : String) (amountSats : ℤ)
    (prep : PrepareSendResponse) (resp : SendPaymentResponse)
    (hp : b.prepareSendPayment ⟨address, some amountSats⟩ = .ok prep)
    (hs : b.sendPayment prep
      (some (SendPaymentOptions.bitcoinAddress ConfirmationSpeed.medium)) = .ok resp) :
    (SendBitcoinAddress b address amountSats).2 = .ok (mkPaymentResponse resp.payment) ∧
    (mkPaymentResponse resp.payment).AmountSats = i64wrap resp.payment.amount ∧
    (mkPaymentResponse resp.payment).FeeSats = i64wrap resp.payment.fees := by
  refine ⟨?_, rfl, rfl⟩
  simp [SendBitcoinAddress, hp, hs]

/-- C3 witness: the amended statement evaluated on the concrete succeeding
backend. -/
theorem C3_witness :
    (SendBitcoinAddress sendBackendC3 "bc1qother" 250).2 = .ok (mkPaymentResponse paymentC3) ∧
    (mkPaymentResponse paymentC3).AmountSats = i64wrap paymentC3.amount ∧
    (mkPaymentResponse paymentC3).FeeSats = i64wrap paymentC3.fees :=
  C3_send_passthrough sendBackendC3 "bc1qother" 250 { tag := 0 } { payment := paymentC3 } rfl rfl

/-- C4: if the credential (BREEZ_API_KEY) or the recovery phrase
(BREEZ_MNEMONIC) reads as empty, facade construction fails during
configuration validation: the backend-call trace is empty — in particular no
runtime connect is attempted — and an error is returned. -/
theorem C4_connect_validates_before_network (env : String → String)
    (connectRuntime : ConnectRequest → Except SdkError Unit) (workingDirOk : Bool)
    (h : getEnv env "BREEZ_API_KEY" "" = "" ∨ getEnv env "BREEZ_MNEMONIC" "" = "") :
    (connectFacade env connectRuntime workingDirOk).1 = [] ∧
    BackendCall.connect ∉ (connectFacade env connectRuntime workingDirOk).1 ∧
    ∃ msg, (connectFacade env connectRuntime workingDirOk).2 = Except.error msg := by
  have hload : ∃ msg, LoadConfig env = Except.error msg := by
    rcases h with h | h
    · by_cases hk : getEnv env "BREEZ_API_KEY" "" = ""
      · exact ⟨"BREEZ_API_KEY is required", by simp [LoadConfig, hk]⟩
      · exact absurd h hk
    · by_cases hk : getEnv env "BREEZ_API_KEY" "" = ""
      · exact ⟨"BREEZ_API_KEY is required", by simp [LoadConfig, hk]⟩
      · exact ⟨"BREEZ_MNEMONIC is required", by simp [LoadConfig, hk, h]⟩
  obtain ⟨msg, hmsg⟩ := hload
  refine ⟨?_, ?_, msg, ?_⟩ <;> simp [connectFacade, hmsg]

/-- An environment in which every variable is unset (reads as empty). -/
def emptyEnv : String → String := fun _ => ""

/-- A runtime connect oracle that would accept any request; C4 shows it is
never reached. -/
def connectRuntimeOk : ConnectRequest → Except SdkError Unit := fun _ => .ok ()

/-- C4 witness: with an unset environment the construction fails with an
empty backend-call trace. -/
theorem C4_witness :
    (connectFacade emptyEnv connectRuntimeOk true).1 = [] ∧
    BackendCall.connect ∉ (connectFacade emptyEnv connectRuntimeOk true).1 ∧
    ∃ msg, (connectFacade emptyEnv connectRuntimeOk true).2 = Except.error msg :=
  C4_connect_validates_before_network emptyEnv connectRuntimeOk true (Or.inl (by decide))

/-- C5: the direction (transaction type) assigned by the ListPayments mapping
follows the explicit backend tag when it is the receive or send tag,
regardless of the sign of the raw amount, and otherwise follows the sign of
the raw Int64 amount, positive meaning incoming ("receive"). -/
theorem C5_direction_classification (p : SdkPayment) :
    (p.paymentType = SdkPaymentType.receive → (listTransaction p).TxType = "receive") ∧
    (p.paymentType = SdkPaymentType.send → (listTransaction p).TxType = "send") ∧
    (∀ tag, p.paymentType = SdkPaymentType.other tag →
      ((listTransaction p).TxType = if 0 < i64wrap p.amount then "receive" else "send")) := by
  refine ⟨?_, ?_, ?_⟩
  · intro h
    simp [listTransaction, listTxType, h]
  · intro h
    simp [listTransaction, listTxType, h]
  · intro tag h
    simp [listTransaction, listTxType, h]

/-- A receive-tagged payment with a negative raw amount, for the C5
witness. -/
def paymentC5recv : SdkPayment :=
  { id := "a", paymentType := SdkPaymentType.receive, amount := -50, fees := 0,
    status := SdkPaymentStatus.pending, timestamp := 0 }

/-- A send-tagged payment with a positive raw amount, for the C5 witness. -/
def paymentC5send : SdkPayment :=
  { id := "b", paymentType := SdkPaymentType.send, amount := 50, fees := 0,
    status := SdkPaymentStatus.pending, timestamp := 0 }

/-- A payment with an unrecognized tag, for the C5 witness. -/
def paymentC5other : SdkPayment :=
  { id := "c", paymentType := SdkPaymentType.other "unknown", amount := 50, fees := 0,
    status := SdkPaymentStatus.pending, timestamp := 0 }

/-- C5 witness: classification evaluated on a receive-tagged record with
negative amount, a send-tagged record with positive amount, and an
unrecognized tag. -/
theorem C5_witness :
    (listTransaction paymentC5recv).TxType = "receive" ∧
    (listTransaction paymentC5send).TxType = "send" ∧
    ((listTransaction paymentC5other).TxType =
      if 0 < i64wrap paymentC5other.amount then "receive" else "send") :=
  ⟨(C5_direction_classification paymentC5recv).1 rfl,
    (C5_direction_classification paymentC5send).2.1 rfl,
    (C5_direction_classification paymentC5other).2.2 "unknown" rfl⟩

/-- A backend info response for the C6 theorems. -/
def infoC6 : GetInfoResponse := { balanceSats := 42, tokenBalances := [] }

/-- A backend payment record for the C6 theorems. -/
def paymentC6 : SdkPayment :=
  { id := "p6", paymentType := SdkPaymentType.receive, amount := 10, fees := 0,
    status := SdkPaymentStatus.completed, timestamp := 0 }

/-- C6, counterexample: when the backend call returns no error as a nil
interface value — the standard Go convention for success — the one-value type
assertion panics, so the operation does not return its normalized result. -/
theorem C6_counterexample :
    GetBalanceOp infoC6 GoErr.nilInterface = OpOutcome.panicked ∧
    GetBalanceOp infoC6 GoErr.nilInterface ≠ OpOutcome.ok (GetBalance infoC6) ∧
    GetPaymentOp paymentC6 GoErr.nilInterface = OpOutcome.panicked := by
  refine ⟨rfl, by decide, rfl⟩

/-- C6, amended: the error-classification step is well-defined exactly when
the returned error is a value of the concrete backend error type: a typed nil
pointer (the no-error result under the backend convention this pattern
assumes) makes the operation return its normalized result, a non-nil typed
error yields the wrapped error return, while a nil interface value makes the
assertion panic. -/
theorem C6_classification_typed_error (info : GetInfoResponse) (p : SdkPayment) (err : GoErr) :
    (err = GoErr.sdkErrorNilPtr →
      GetBalanceOp info err = OpOutcome.ok (GetBalance info) ∧
      GetPaymentOp p err = OpOutcome.ok (getTransaction p)) ∧
    (∀ m, err = GoErr.sdkError m →
      GetBalanceOp info err = OpOutcome.errReturn ("failed to get wallet info: " ++ m) ∧
      GetPaymentOp p err = OpOutcome.errReturn ("failed to get payment: " ++ m)) ∧
    (err = GoErr.nilInterface →
      GetBalanceOp info err = OpOutcome.panicked ∧
      GetPaymentOp p err = OpOutcome.panicked) := by
  refine ⟨?_, ?_, ?_⟩
  · intro h
    subst h
    exact ⟨rfl, rfl⟩
  · intro m h
    subst h
    exact ⟨rfl, rfl⟩
  · intro h
    subst h
    exact ⟨rfl, rfl⟩

/-- C6 witness: the typed-nil no-error case evaluated on concrete backend
responses. -/
theorem C6_witness :
    GetBalanceOp infoC6 GoErr.sdkErrorNilPtr = OpOutcome.ok (GetBalance infoC6) ∧
    GetPaymentOp paymentC6 GoErr.sdkErrorNilPtr = OpOutcome.ok (getTransaction paymentC6) :=
  (C6_classification_typed_error infoC6 paymentC6 GoErr.sdkErrorNilPtr).1 rfl

/-- C7: when the alias resolves to anything other than the lightning-address
(pay-request) capability, LnUrlPay issues only the resolution call — neither
the prepare call nor the pay call is attempted — and fails with the
unsupported-type error. -/
theorem C7_lnurl_unsupported_alias (b : LnurlBackend) (addr : String) (amountSats : ℕ)
    (comment : String) (kind : String)
    (h : b.parse addr = Except.ok (InputType.otherInput kind)) :
    (LnUrlPay b addr amountSats comment).1 = [BackendCall.parse] ∧
    BackendCall.prepareLnurlPay ∉ (LnUrlPay b addr amountSats comment).1 ∧
    BackendCall.lnurlPay ∉ (LnUrlPay b addr amountSats comment).1 ∧
    (LnUrlPay b addr amountSats comment).2 = Except.error "unsupported LNURL address type" := by
  have h1 : LnUrlPay b addr amountSats comment =
      ([BackendCall.parse], Except.error "unsupported LNURL address type") := by
    simp [LnUrlPay, h]
  rw [h1]
  exact ⟨rfl, by decide, by decide, rfl⟩

/-- A resolution backend for the C7 witness: the alias resolves to a
non-pay-request kind; prepare and pay would fail if ever reached. -/
def lnurlBackendC7 : LnurlBackend :=
  { parse := fun _ => .ok (InputType.otherInput "url")
    prepareLnurlPay := fun _ => .error { msg := "unreachable" }
    lnurlPay := fun _ => .error { msg := "unreachable" } }

/-- C7 witness: the statement evaluated on the concrete resolution
backend. -/
theorem C7_witness :
    (LnUrlPay lnurlBackendC7 "user@example.com" 5000 "hi").1 = [BackendCall.parse] ∧
    BackendCall.prepareLnurlPay ∉ (LnUrlPay lnurlBackendC7 "user@example.com" 5000 "hi").1 ∧
    BackendCall.lnurlPay ∉ (LnUrlPay lnurlBackendC7 "user@example.com" 5000 "hi").1 ∧
    (LnUrlPay lnurlBackendC7 "user@example.com" 5000 "hi").2 =
      Except.error "unsupported LNURL address type" :=
  C7_lnurl_unsupported_alias lnurlBackendC7 "user@example.com" 5000 "hi" "url" rfl

/-- C8, counterexample: the claim states the page size equals the requested
limit for every limit at least 10; at limit 2 to the 32nd plus 5 the uint32
conversion truncates to 5, so the facade requests 100 instead. -/
theorem C8_counterexample :
    (10 : ℤ) ≤ 2 ^ 32 + 5 ∧
    effectivePageSize (2 ^ 32 + 5) = 100 ∧
    (effectivePageSize (2 ^ 32 + 5) : ℤ) ≠ 2 ^ 32 + 5 := by
  refine ⟨by decide, by decide, by decide⟩

/-- C8, amended: for limits between 0 and 9 the requested page size is 100
(hence at least 100); for limits between 10 and 2 to the 32nd minus 1 the
page size equals the limit (larger limits are first truncated to 32 bits by
the uint32 conversion); and the facade returns every backend entry, trimming
nothing. -/
theorem C8_page_size_floor (limit : ℤ) :
    (0 ≤ limit → limit < 10 → effectivePageSize limit = 100) ∧
    (10 ≤ limit → limit < 2 ^ 32 → (effectivePageSize limit : ℤ) = limit) ∧
    (∀ (listPayments : ListPaymentsRequest → Except SdkError (List SdkPayment))
        (payments : List SdkPayment),
      listPayments ⟨0, effectivePageSize limit⟩ = Except.ok payments →
      GetTransactions listPayments limit = Except.ok (payments.map listTransaction) ∧
      (payments.map listTransaction).length = payments.length) := by
  refine ⟨?_, ?_, ?_⟩
  · intro h0 h10
    have hmod : limit % 2 ^ 32 = limit := Int.emod_eq_of_lt h0 (by omega)
    have ht : (limit % 2 ^ 32).toNat < 10 := by omega
    simp [effectivePageSize, u32ofInt, ht]
    omega
  · intro h10 hlt
    have h0 : (0 : ℤ) ≤ limit := by omega
    have hmod : limit % 2 ^ 32 = limit := Int.emod_eq_of_lt h0 hlt
    have ht : ¬ (limit % 2 ^ 32).toNat < 10 := by omega
    simp [effectivePageSize, u32ofInt, ht]
    omega
  · intro lp payments h
    constructor
    · simp [GetTransactions, h]
    · simp

/-- A backend payment record for the C8 witness. -/
def paymentC8 : SdkPayment :=
  { id := "p8", paymentType := SdkPaymentType.receive, amount := 1, fees := 0,
    status := SdkPaymentStatus.completed, timestamp := 0 }

/-- A ListPayments oracle for the C8 witness, returning one payment for any
request. -/
def listPaymentsC8 : ListPaymentsRequest → Except SdkError (List SdkPayment) :=
  fun _ => .ok [paymentC8]

/-- C8 witness: the amended statement evaluated at limits 3, 50 and 7. -/
theorem C8_witness :
    effectivePageSize 3 = 100 ∧
    (effectivePageSize 50 : ℤ) = 50 ∧
    GetTransactions listPaymentsC8 7 = Except.ok ([paymentC8].map listTransaction) :=
  ⟨(C8_page_size_floor 3).1 (by decide) (by decide),
    (C8_page_size_floor 50).2.1 (by decide) (by decide),
    ((C8_page_size_floor 7).2.2 listPaymentsC8 [paymentC8] rfl).1⟩

/-- C9: every network-selection string other than the exact "mainnet" maps to
the regtest sandbox network; only "mainnet" selects the production
network. -/
theorem C9_network_default_sandbox (s : String) (h : s ≠ "mainnet") :
    networkFromString s = Network.regtest ∧
    networkFromString "mainnet" = Network.mainnet := by
  refine ⟨?_, rfl⟩
  simp [networkFromString, h]

/-- C9 witness: evaluated at the unrecognized selection string "signet". -/
theorem C9_witness :
    networkFromString "signet" = Network.regtest ∧
    networkFromString "mainnet" = Network.mainnet :=
  C9_network_default_sandbox "signet" (by decide)

/-- C10: on each of the three send paths, a prepare-phase failure makes the
operation return the wrapped prepare error with only the prepare call in the
backend trace: the execute call is never attempted. -/
theorem C10_prepare_failure_skips_execute (b : SendBackend)
    (bolt11 address sparkAddress : String) (amountSats : ℤ) (e : SdkError) :
    (b.prepareSendPayment ⟨bolt11, none⟩ = Except.error e →
      (SendLightningInvoice b bolt11).1 = [BackendCall.prepareSendPayment] ∧
      BackendCall.sendPayment ∉ (SendLightningInvoice b bolt11).1 ∧
      (SendLightningInvoice b bolt11).2 =
        Except.error ("failed to prepare lightning payment: " ++ e.msg)) ∧
    (b.prepareSendPayment ⟨address, some amountSats⟩ = Except.error e →
      (SendBitcoinAddress b address amountSats).1 = [BackendCall.prepareSendPayment] ∧
      BackendCall.sendPayment ∉ (SendBitcoinAddress b address amountSats).1 ∧
      (SendBitcoinAddress b address amountSats).2 =
        Except.error ("failed to prepare onchain payment: " ++ e.msg)) ∧
    (b.prepareSendPayment ⟨sparkAddress, some amountSats⟩ = Except.error e →
      (SendSparkAddress b sparkAddress amountSats).1 = [BackendCall.prepareSendPayment] ∧
      BackendCall.sendPayment ∉ (SendSparkAddress b sparkAddress amountSats).1 ∧
      (SendSparkAddress b sparkAddress amountSats).2 =
        Except.error ("failed to prepare spark payment: " ++ e.msg)) := by
  refine ⟨?_, ?_, ?_⟩
  · intro h
    have h1 : SendLightningInvoice b bolt11 =
        ([BackendCall.prepareSendPayment],
          Except.error ("failed to prepare lightning payment: " ++ e.msg)) := by
      simp [SendLightningInvoice, h]
    rw [h1]
    refine ⟨rfl, ?_, rfl⟩
    simp
  · intro h
    have h1 : SendBitcoinAddress b address amountSats =
        ([BackendCall.prepareSendPayment],
          Except.error ("failed to prepare onchain payment: " ++ e.msg)) := by
      simp [SendBitcoinAddress, h]
    rw [h1]
    refine ⟨rfl, ?_, rfl⟩
    simp
  · intro h
    have h1 : SendSparkAddress b sparkAddress amountSats =
        ([BackendCall.prepareSendPayment],
          Except.error ("failed to prepare spark payment: " ++ e.msg)) := by
      simp [SendSparkAddress, h]
    rw [h1]
    refine ⟨rfl, ?_, rfl⟩
    simp

/-- The backend error of the C10 witness. -/
def sdkErrC10 : SdkError := { msg := "insufficient funds" }

/-- A payment record for the (unreached) execute phase of the C10 witness
backend. -/
def paymentC10 : SdkPayment :=
  { id := "d", paymentType := SdkPaymentType.send, amount := 1, fees := 0,
    status := SdkPaymentStatus.failed, timestamp := 0 }

/-- A send backend whose prepare phase always fails, for the C10 witness. -/
def sendBackendC10 : SendBackend :=
  { prepareSendPayment := fun _ => .error sdkErrC10
    sendPayment := fun _ _ => .ok { payment := paymentC10 } }

/-- C10 witness: the statement evaluated on the failing-prepare backend for
all three send paths. -/
theorem C10_witness :
    ((SendLightningInvoice sendBackendC10 "lnbc1").1 = [BackendCall.prepareSendPayment] ∧
      BackendCall.sendPayment ∉ (SendLightningInvoice sendBackendC10 "lnbc1").1 ∧
      (SendLightningInvoice sendBackendC10 "lnbc1").2 =
        Except.error ("failed to prepare lightning payment: " ++ sdkErrC10.msg)) ∧
    ((SendBitcoinAddress sendBackendC10 "bc1qdest" 5).1 = [BackendCall.prepareSendPayment] ∧
      BackendCall.sendPayment ∉ (SendBitcoinAddress sendBackendC10 "bc1qdest" 5).1 ∧
      (SendBitcoinAddress sendBackendC10 "bc1qdest" 5).2 =
        Except.error ("failed to prepare onchain payment: " ++ sdkErrC10.msg)) ∧
    ((SendSparkAddress sendBackendC10 "sprk1" 5).1 = [BackendCall.prepareSendPayment] ∧
      BackendCall.sendPayment ∉ (SendSparkAddress sendBackendC10 "sprk1" 5).1 ∧
      (SendSparkAddress sendBackendC10 "sprk1" 5).2 =
        Except.error ("failed to prepare spark payment: " ++ sdkErrC10.msg)) :=
  ⟨(C10_prepare_failure_skips_execute sendBackendC10 "lnbc1" "bc1qdest" "sprk1" 5 sdkErrC10).1 rfl,
    (C10_prepare_failure_skips_execute sendBackendC10 "lnbc1" "bc1qdest" "sprk1" 5 sdkErrC10).2.1 rfl,
    (C10_prepare_failure_skips_execute sendBackendC10 "lnbc1" "bc1qdest" "sprk1" 5 sdkErrC10).2.2 rfl⟩

end TinySpark
